import Mathlib

/-!
Verification of the beatnik-bleno WiFi provisioning service.

The definitions below are a shallow embedding of the TypeScript source:
the application state store (src/services/state.service.ts), the
connection orchestrator (src/services/wifi-manager.service.ts), the
connect-trigger GATT characteristic handler
(src/characteristics/base.characteristic.ts), the chunked notify
delivery of the networks list characteristic, and the nmcli scan
output parser.  Stateful methods become explicit state-passing
functions; asynchronous external commands (nmcli, iwconfig, ip addr,
os.hostname) are abstracted as an adapter record holding their results.
-/

namespace Beatnik

/-- WiFiStatus from src/models/wifi.model.ts: nullable string fields are
Options. -/
structure WiFiStatus where
  connected : Bool
  ssid : Option String
  ip : Option String
  hostname : Option String
  deviceId : Option String
  message : String
deriving DecidableEq, Repr

/-- ProvisioningState enum from src/models/state.model.ts. -/
inductive ProvisioningState where
  | idle
  | scanning
  | connecting_wifi
  | provisioned
  | error
deriving DecidableEq, Repr

/-- BleState enum from src/models/state.model.ts. -/
inductive BleState where
  | poweredOn
  | advertising
  | connected
  | disconnected
  | unknown
deriving DecidableEq, Repr

/-- AppState aggregate from src/models/state.model.ts. -/
structure AppState where
  wifiStatus : WiFiStatus
  provisioning : ProvisioningState
  ble : BleState
  lastError : Option String
deriving DecidableEq, Repr

/-- INITIAL_STATE from src/models/state.model.ts. -/
def INITIAL_STATE : AppState :=
  { wifiStatus :=
      { connected := false
        ssid := none
        ip := none
        hostname := none
        deviceId := none
        message := "Not connected" }
    provisioning := ProvisioningState.idle
    ble := BleState.unknown
    lastError := none }

/-- A partial WiFiStatus, as accepted by StateService.updateWiFiStatus
(TypeScript Partial type): each field is present or absent. -/
structure WiFiStatusPatch where
  connected : Option Bool := none
  ssid : Option (Option String) := none
  ip : Option (Option String) := none
  hostname : Option (Option String) := none
  deviceId : Option (Option String) := none
  message : Option String := none
deriving DecidableEq, Repr

/-- The JavaScript object spread of a current status with a patch:
fields present in the patch override the current value. -/
def mergeStatus (cur : WiFiStatus) (p : WiFiStatusPatch) : WiFiStatus :=
  { connected := p.connected.getD cur.connected
    ssid := p.ssid.getD cur.ssid
    ip := p.ip.getD cur.ip
    hostname := p.hostname.getD cur.hostname
    deviceId := p.deviceId.getD cur.deviceId
    message := p.message.getD cur.message }

/-!
StateService mutators (src/services/state.service.ts).  Each mutator
returns the new state together with the number of stateChanged
notifications it emitted to subscribers.
-/

/-- StateService.updateWiFiStatus: merges the patch and always emits
one stateChanged notification. -/
def updateWiFiStatus (p : WiFiStatusPatch) (st : AppState) : AppState × Nat :=
  ({ st with wifiStatus := mergeStatus st.wifiStatus p }, 1)

/-- StateService.updateProvisioningState: writes and emits only when the
value actually changes. -/
def updateProvisioningState (s : ProvisioningState) (st : AppState) : AppState × Nat :=
  if st.provisioning ≠ s then ({ st with provisioning := s }, 1) else (st, 0)

/-- StateService.updateBleState: writes and emits only when the value
actually changes. -/
def updateBleState (b : BleState) (st : AppState) : AppState × Nat :=
  if st.ble ≠ b then ({ st with ble := b }, 1) else (st, 0)

/-- StateService.setError: stores the error, forces the provisioning
state to ERROR when the error is truthy (non-null and not the empty
string, per the JavaScript truthiness test on the message), then always
emits one more stateChanged notification. -/
def setError (e : Option String) (st : AppState) : AppState × Nat :=
  let st1 : AppState := { st with lastError := e }
  match e with
  | some m =>
      if m = "" then (st1, 1)
      else
        let r := updateProvisioningState ProvisioningState.error st1
        (r.1, r.2 + 1)
  | none => (st1, 1)

/-!
Connection orchestrator: WiFiManagerService.connect
(src/services/wifi-manager.service.ts, lines 103 to 161).  The
asynchronous platform operations are abstracted as an adapter record:
the platform connect step (connectLinux or connectMacOS, which either
returns or throws an error message), verifyConnection, getIPAddress and
os.hostname.
-/

/-- Results of the external network commands used during one connect
attempt, on a supported platform. -/
structure Adapter where
  platformConnect : Except String Unit
  verify : String → Bool
  currentIp : Option String
  hostname : String

/-- WiFi credentials from src/models/wifi.model.ts. -/
structure WiFiCredentials where
  ssid : String
  password : String
deriving DecidableEq, Repr

/-- The catch block of WiFiManagerService.connect: records the failure
message in the status, moves the provisioning state to ERROR, stores
the error, and rethrows the error message. -/
def connectCatch (cred : WiFiCredentials) (msg : String) (st : AppState) :
    Option String × AppState :=
  let st1 := (updateWiFiStatus
    { connected := some false
      ssid := some (some cred.ssid)
      ip := some none
      hostname := some none
      message := some ("Connection failed: " ++ msg) } st).1
  let st2 := (updateProvisioningState ProvisioningState.error st1).1
  let st3 := (setError (some msg) st2).1
  (some msg, st3)

/-- WiFiManagerService.connect: sets CONNECTING_WIFI and a Connecting
status, runs the platform connect step, waits, verifies, and resolves.
The first component is the thrown error message (none when the promise
resolves), the second the final application state. -/
def connect (a : Adapter) (cred : WiFiCredentials) (st : AppState) :
    Option String × AppState :=
  let st1 := (updateProvisioningState ProvisioningState.connecting_wifi st).1
  let st2 := (updateWiFiStatus
    { connected := some false
      ssid := some (some cred.ssid)
      ip := some none
      hostname := some none
      message := some "Connecting..." } st1).1
  match a.platformConnect with
  | Except.error msg => connectCatch cred msg st2
  | Except.ok _ =>
      if a.verify cred.ssid then
        let st3 := (updateWiFiStatus
          { connected := some true
            ssid := some (some cred.ssid)
            ip := some a.currentIp
            hostname := some (some a.hostname)
            message := some "Connected successfully" } st2).1
        let st4 := (updateProvisioningState ProvisioningState.provisioned st3).1
        (none, st4)
      else
        connectCatch cred "Connection verification failed" st2

/-!
ConnectCharacteristic.onWriteRequest
(src/characteristics/base.characteristic.ts, lines 135 to 175).
-/

/-- Bleno attribute result codes used by the handlers. -/
inductive BleResult where
  | success
  | invalidOffset
  | attrNotLong
  | unlikelyError
deriving DecidableEq, Repr

/-- Observable outcome of one onWriteRequest invocation: the result code
passed to the callback (none when the handler threw before replying,
as Buffer.readUInt8 does on an empty buffer), the application state
afterwards, and whether the WiFi manager connect operation was
invoked. -/
structure WriteOutcome where
  reply : Option BleResult
  state : AppState
  adapterInvoked : Bool
deriving DecidableEq, Repr

/-- ConnectCharacteristic.onWriteRequest.  A nonzero offset is answered
with RESULT_ATTR_NOT_LONG (BaseCharacteristic.handleOffset).  Otherwise
the first byte of the payload is read with Buffer.readUInt8(0), which
throws on an empty buffer; a first byte of 1 triggers a connect with
the stored credentials unless the stored ssid is empty, and any other
first byte is answered with RESULT_SUCCESS and no side effect. -/
def connectOnWriteRequest (a : Adapter) (ssid password : String)
    (data : List Nat) (offset : Nat) (st : AppState) : WriteOutcome :=
  if offset ≠ 0 then
    { reply := some BleResult.attrNotLong, state := st, adapterInvoked := false }
  else
    match data.head? with
    | none => { reply := none, state := st, adapterInvoked := false }
    | some b =>
        if b = 1 then
          if ssid = "" then
            { reply := some BleResult.unlikelyError, state := st
              adapterInvoked := false }
          else
            let r := connect a { ssid := ssid, password := password } st
            match r.1 with
            | none =>
                { reply := some BleResult.success, state := r.2
                  adapterInvoked := true }
            | some _ =>
                { reply := some BleResult.unlikelyError, state := r.2
                  adapterInvoked := true }
        else
          { reply := some BleResult.success, state := st, adapterInvoked := false }

/-!
NetworkListCharacteristic.sendNetworks chunk loop
(src/characteristics/network-list.characteristic.ts): while offset is
below the buffer length, emit data.slice(offset, offset + maxValueSize)
and advance the offset by maxValueSize.  The loop is written with the
remaining suffix of the buffer as the loop variable; a fuel argument
bounded by the buffer length makes the recursion structural (with
maxValueSize at least 1 the fuel is never exhausted before the data;
with maxValueSize 0 the source loop itself would not terminate). -/

def chunkLoop (fuel maxValueSize : Nat) (data : List Nat) : List (List Nat) :=
  match fuel, data with
  | 0, _ => []
  | _, [] => []
  | Nat.succ f, d =>
      d.take maxValueSize :: chunkLoop f maxValueSize (d.drop maxValueSize)

/-- The sequence of notification payloads produced by sendNetworks for a
serialized buffer, in delivery order. -/
def sendNetworksChunks (maxValueSize : Nat) (data : List Nat) : List (List Nat) :=
  chunkLoop data.length maxValueSize data

/-!
Scan output parsing: WiFiManagerService.parseNmcliOutput
(src/services/wifi-manager.service.ts, lines 478 to 501).  The parser
trims the output, splits it into lines, splits each line at colons not
preceded by a backslash, unescapes the ssid, parses the signal with
parseInt, rejoins the security fields, and inserts the entry into a Map
keyed by ssid unless the ssid is empty or already present.
-/

/-- Network scan entry from src/models/wifi.model.ts.  The quality field
is the JavaScript number returned by parseInt; none models NaN. -/
structure Network where
  ssid : String
  quality : Option Int
  security : String
deriving DecidableEq, Repr

/-- Whitespace as trimmed by the JavaScript String.trim of the outputs
handled here (ASCII space, tab, newline, carriage return, vertical tab,
form feed). -/
def isJsWhitespace (c : Char) : Bool :=
  c = ' ' || c = '\t' || c = '\n' || c = '\x0d' || c = Char.ofNat 11 || c = Char.ofNat 12

/-- JavaScript String.trim on a character list. -/
def jsTrim (l : List Char) : List Char :=
  ((l.dropWhile isJsWhitespace).reverse.dropWhile isJsWhitespace).reverse

/-- JavaScript String.split with a single-character separator: splitting
the empty string yields one empty field, and every separator occurrence
starts a new field. -/
def splitOnChar (sep : Char) : List Char → List (List Char)
  | [] => [[]]
  | x :: xs =>
      let rest := splitOnChar sep xs
      if x = sep then [] :: rest
      else
        match rest with
        | r :: rs => (x :: r) :: rs
        | [] => [[x]]

/-- Splitting a line at every colon that is not preceded by a backslash,
as the regex split with a negative lookbehind does; the first argument
tracks the previous character. -/
def splitUnescapedColon (prev : Option Char) : List Char → List (List Char)
  | [] => [[]]
  | x :: xs =>
      let rest := splitUnescapedColon (some x) xs
      if x = ':' ∧ prev ≠ some '\\' then [] :: rest
      else
        match rest with
        | r :: rs => (x :: r) :: rs
        | [] => [[x]]

/-- The global replacement of the two-character sequence backslash colon
by a colon, applied to the ssid field. -/
def unescapeColons : List Char → List Char
  | '\\' :: ':' :: rest => ':' :: unescapeColons rest
  | x :: rest => x :: unescapeColons rest
  | [] => []

/-- Numeric value of a maximal leading run of decimal digits; none when
there is no leading digit. -/
def leadingDigitsValue (l : List Char) : Option Nat :=
  match l.takeWhile Char.isDigit with
  | [] => none
  | ds => some (ds.foldl (fun acc c => acc * 10 + (c.toNat - 48)) 0)

/-- JavaScript parseInt with radix 10: skip leading whitespace, accept
an optional sign, read the maximal digit prefix; NaN (none) when no
digit follows. -/
def jsParseInt (l : List Char) : Option Int :=
  match l.dropWhile isJsWhitespace with
  | '-' :: rest => (leadingDigitsValue rest).map (fun n => -(n : Int))
  | '+' :: rest => (leadingDigitsValue rest).map (fun n => (n : Int))
  | t => (leadingDigitsValue t).map (fun n => (n : Int))

/-- Array.prototype.flatten with a colon separator. -/
def joinWithColon : List (List Char) → List Char
  | [] => []
  | [x] => x
  | x :: xs => x ++ ':' :: joinWithColon xs

/-- The security label stored for a network: the rejoined security
fields trimmed, with the empty string replaced by the label None. -/
def securityLabel (parts : List (List Char)) : String :=
  let t := jsTrim (joinWithColon parts)
  if t = [] then "None" else String.mk t

/-- The candidate entry a single nmcli line contributes before
deduplication: lines with fewer than three fields or an empty unescaped
ssid contribute nothing. -/
def parseLine (line : List Char) : Option Network :=
  match splitUnescapedColon none line with
  | p0 :: p1 :: p2 :: rest =>
      let ssid := unescapeColons p0
      if ssid ≠ [] then
        some
          { ssid := String.mk ssid
            quality := jsParseInt p1
            security := securityLabel (p2 :: rest) }
      else none
  | _ => none

/-- The per-line candidate entries of a whole nmcli output, in line
order. -/
def lineEntries (output : String) : List Network :=
  ((splitOnChar '\n' (jsTrim output.data)).map parseLine).reduceOption

/-- Insertion into the Map keyed by ssid: an entry is kept only when its
ssid has not been seen before, and kept entries appear in first-seen
order. -/
def dedupNetworks (seen : List String) : List Network → List Network
  | [] => []
  | n :: rest =>
      if n.ssid ∈ seen then dedupNetworks seen rest
      else n :: dedupNetworks (n.ssid :: seen) rest

/-- WiFiManagerService.parseNmcliOutput. -/
def parseNmcliOutput (output : String) : List Network :=
  dedupNetworks [] (lineEntries output)

/-!
Concrete adapter fixtures used by witnesses and counterexamples,
matching the mock of the end-to-end scenarios: the platform connect
step succeeds and the IP is 192.168.1.50.
-/

/-- Adapter whose connect succeeds and whose verification succeeds. -/
def okAdapter : Adapter :=
  { platformConnect := Except.ok ()
    verify := fun _ => true
    currentIp := some "192.168.1.50"
    hostname := "beatnik" }

/-- Adapter whose connect succeeds but whose verification fails. -/
def verifyFailAdapter : Adapter :=
  { platformConnect := Except.ok ()
    verify := fun _ => false
    currentIp := some "192.168.1.50"
    hostname := "beatnik" }

/-- Adapter whose connect and verification succeed but whose IP query
returns null, as getIPAddress does when the ip addr output is empty or
the command fails. -/
def noIpAdapter : Adapter :=
  { platformConnect := Except.ok ()
    verify := fun _ => true
    currentIp := none
    hostname := "beatnik" }

/-- The AppState invariant of the specification: a stored error forces
the provisioning state to be ERROR. -/
def errorInv (st : AppState) : Prop :=
  st.lastError ≠ none → st.provisioning = ProvisioningState.error

/-!
Helper lemmas about the state store mutators.
-/

/-- The state component of updateProvisioningState is a plain field
write. -/
theorem updateProvisioningState_state (s : ProvisioningState) (st : AppState) :
    (updateProvisioningState s st).1 = { st with provisioning := s } := by
  unfold updateProvisioningState
  split
  · rfl
  · rename_i h
    push_neg at h
    cases st
    simp_all

/-- The state component of updateBleState is a plain field write. -/
theorem updateBleState_state (b : BleState) (st : AppState) :
    (updateBleState b st).1 = { st with ble := b } := by
  unfold updateBleState
  split
  · rfl
  · rename_i h
    push_neg at h
    cases st
    simp_all

/-- The state component of setError with a non-null message writes the
error and forces ERROR exactly when the message is truthy, that is,
non-empty. -/
theorem setError_some_state (m : String) (st : AppState) :
    (setError (some m) st).1 =
      { st with
        lastError := some m
        provisioning :=
          if m = "" then st.provisioning else ProvisioningState.error } := by
  unfold setError
  by_cases hm : m = ""
  · simp [hm]
  · simp [hm, updateProvisioningState_state]

/-- The state component of setError with null clears the error and
changes nothing else. -/
theorem setError_none_state (st : AppState) :
    (setError none st).1 = { st with lastError := none } := rfl

/-!
Closed forms of the two resolutions of a connect attempt.
-/

/-- Closed form of a connect attempt whose platform step succeeds and
whose verification succeeds. -/
theorem connect_ok (a : Adapter) (cred : WiFiCredentials) (st : AppState)
    (hc : a.platformConnect = Except.ok ()) (hv : a.verify cred.ssid = true) :
    connect a cred st =
      (none,
        { wifiStatus :=
            { connected := true
              ssid := some cred.ssid
              ip := a.currentIp
              hostname := some a.hostname
              deviceId := st.wifiStatus.deviceId
              message := "Connected successfully" }
          provisioning := ProvisioningState.provisioned
          ble := st.ble
          lastError := st.lastError }) := by
  unfold connect
  rw [hc]
  simp [hv, updateWiFiStatus, mergeStatus, updateProvisioningState_state]

/-- Closed form of a connect attempt whose platform step succeeds but
whose verification fails. -/
theorem connect_verifyFail (a : Adapter) (cred : WiFiCredentials) (st : AppState)
    (hc : a.platformConnect = Except.ok ()) (hv : a.verify cred.ssid = false) :
    connect a cred st =
      (some "Connection verification failed",
        { wifiStatus :=
            { connected := false
              ssid := some cred.ssid
              ip := none
              hostname := none
              deviceId := st.wifiStatus.deviceId
              message := "Connection failed: Connection verification failed" }
          provisioning := ProvisioningState.error
          ble := st.ble
          lastError := some "Connection verification failed" }) := by
  unfold connect connectCatch
  rw [hc]
  simp [hv, updateWiFiStatus, mergeStatus, updateProvisioningState_state,
    setError_some_state]

/-- Closed form of a connect attempt whose platform step fails with an
error message. -/
theorem connect_platformFail (a : Adapter) (cred : WiFiCredentials) (st : AppState)
    (msg : String) (hc : a.platformConnect = Except.error msg) :
    connect a cred st =
      (some msg,
        { wifiStatus :=
            { connected := false
              ssid := some cred.ssid
              ip := none
              hostname := none
              deviceId := st.wifiStatus.deviceId
              message := "Connection failed: " ++ msg }
          provisioning := ProvisioningState.error
          ble := st.ble
          lastError := some msg }) := by
  unfold connect connectCatch
  rw [hc]
  simp [updateWiFiStatus, mergeStatus, updateProvisioningState_state,
    setError_some_state]

/-- C1: for every credential pair with a non-empty network identifier,
if the platform connect step succeeds and verify(ssid) returns true,
connect resolves with WiFiStatus connected true, the requested ssid,
the value of the IP query, the hostname, the message Connected
successfully, and ProvisioningState PROVISIONED. -/
theorem connect_success_provisioned (a : Adapter) (cred : WiFiCredentials)
    (st : AppState) (hne : cred.ssid ≠ "")
    (hc : a.platformConnect = Except.ok ())
    (hv : a.verify cred.ssid = true) :
    (connect a cred st).1 = none ∧
    (connect a cred st).2.wifiStatus =
      { connected := true
        ssid := some cred.ssid
        ip := a.currentIp
        hostname := some a.hostname
        deviceId := st.wifiStatus.deviceId
        message := "Connected successfully" } ∧
    (connect a cred st).2.provisioning = ProvisioningState.provisioned := by
  rw [connect_ok a cred st hc hv]
  exact ⟨rfl, rfl, rfl⟩

/-- Witness for C1: the end-to-end scenario with ssid HomeNet, secret
secret123 and IP 192.168.1.50. -/
theorem connect_success_provisioned_witness :
    ("HomeNet" : String) ≠ "" ∧
    okAdapter.platformConnect = Except.ok () ∧
    okAdapter.verify "HomeNet" = true ∧
    ((connect okAdapter { ssid := "HomeNet", password := "secret123" }
        INITIAL_STATE).1 = none ∧
      (connect okAdapter { ssid := "HomeNet", password := "secret123" }
        INITIAL_STATE).2.wifiStatus =
        { connected := true
          ssid := some "HomeNet"
          ip := okAdapter.currentIp
          hostname := some okAdapter.hostname
          deviceId := INITIAL_STATE.wifiStatus.deviceId
          message := "Connected successfully" } ∧
      (connect okAdapter { ssid := "HomeNet", password := "secret123" }
        INITIAL_STATE).2.provisioning = ProvisioningState.provisioned) :=
  ⟨by decide, rfl, rfl,
    connect_success_provisioned okAdapter
      { ssid := "HomeNet", password := "secret123" } INITIAL_STATE
      (by decide) rfl rfl⟩

/-- C2: for every credential pair with a non-empty network identifier,
if the platform connect step succeeds but verify(ssid) returns false,
connect ends with ProvisioningState ERROR, the message Connection
failed: Connection verification failed, connected false, and a non-null
lastError. -/
theorem connect_verify_false_error (a : Adapter) (cred : WiFiCredentials)
    (st : AppState) (hne : cred.ssid ≠ "")
    (hc : a.platformConnect = Except.ok ())
    (hv : a.verify cred.ssid = false) :
    (connect a cred st).2.provisioning = ProvisioningState.error ∧
    (connect a cred st).2.wifiStatus.message =
      "Connection failed: Connection verification failed" ∧
    (connect a cred st).2.wifiStatus.connected = false ∧
    (connect a cred st).2.lastError ≠ none := by
  rw [connect_verifyFail a cred st hc hv]
  refine ⟨rfl, rfl, rfl, ?_⟩
  simp

/-- Witness for C2: the end-to-end scenario whose adapter verification
returns false. -/
theorem connect_verify_false_error_witness :
    ("HomeNet" : String) ≠ "" ∧
    verifyFailAdapter.platformConnect = Except.ok () ∧
    verifyFailAdapter.verify "HomeNet" = false ∧
    ((connect verifyFailAdapter { ssid := "HomeNet", password := "secret123" }
        INITIAL_STATE).2.provisioning = ProvisioningState.error ∧
      (connect verifyFailAdapter { ssid := "HomeNet", password := "secret123" }
        INITIAL_STATE).2.wifiStatus.message =
        "Connection failed: Connection verification failed" ∧
      (connect verifyFailAdapter { ssid := "HomeNet", password := "secret123" }
        INITIAL_STATE).2.wifiStatus.connected = false ∧
      (connect verifyFailAdapter { ssid := "HomeNet", password := "secret123" }
        INITIAL_STATE).2.lastError ≠ none) :=
  ⟨by decide, rfl, rfl,
    connect_verify_false_error verifyFailAdapter
      { ssid := "HomeNet", password := "secret123" } INITIAL_STATE
      (by decide) rfl rfl⟩

/-- C3: a write of the single byte 1 at offset 0 to the connect trigger
while the stored ssid is empty replies with an error result, never
invokes the connect operation, and leaves the state unchanged. -/
theorem connectTrigger_emptySsid_rejected (a : Adapter) (password : String)
    (st : AppState) :
    connectOnWriteRequest a "" password [1] 0 st =
      { reply := some BleResult.unlikelyError
        state := st
        adapterInvoked := false } := rfl

/-- The catch path of connect always leaves the invariant established:
it moves the provisioning state to ERROR before calling setError, so
the invariant holds for every message, truthy or not. -/
theorem connectCatch_errorInv (cred : WiFiCredentials) (msg : String)
    (st : AppState) : errorInv (connectCatch cred msg st).2 := by
  unfold connectCatch errorInv
  simp [setError_some_state, updateProvisioningState_state]

/-- The credentials of the end-to-end scenarios. -/
def homeNetCred : WiFiCredentials :=
  { ssid := "HomeNet", password := "secret123" }

/-- The state reached by a failed attempt followed by a successful
attempt with the same credentials: the program source never clears
lastError, so the stale error survives into the PROVISIONED state. -/
def reconnectState : AppState :=
  (connect okAdapter homeNetCred
    (connect verifyFailAdapter homeNetCred INITIAL_STATE).2).2

/-- Counterexample to C5: after a verification failure followed by a
successful attempt, both along the orchestrator connect flow, the
reached state carries a non-null lastError while provisioning is
PROVISIONED, so the invariant is not preserved by the reachable
states. -/
theorem errorInv_violated_by_reconnect :
    reconnectState.lastError = some "Connection verification failed" ∧
    reconnectState.provisioning = ProvisioningState.provisioned ∧
    ¬ errorInv reconnectState := by
  refine ⟨rfl, rfl, ?_⟩
  intro h
  have hp := h (by decide)
  exact absurd hp (by decide)

/-- C5 amended: the invariant that a non-null lastError forces
provisioning ERROR holds in the initial state, is preserved by
updateWiFiStatus and updateBleState, is established by every setError
call whose message is truthy (non-empty) or null, and by every failing
connect attempt; it is not preserved by updateProvisioningState, nor by
setError with the falsy empty-string message, which stores a non-null
lastError without forcing ERROR, and a successful connect after an
error leaves it violated, since lastError is never cleared. -/
theorem errorInv_initial_and_mutators :
    errorInv INITIAL_STATE ∧
    (∀ (p : WiFiStatusPatch) (st : AppState), errorInv st →
      errorInv (updateWiFiStatus p st).1) ∧
    (∀ (b : BleState) (st : AppState), errorInv st →
      errorInv (updateBleState b st).1) ∧
    (∀ (m : String) (st : AppState), m ≠ "" →
      errorInv (setError (some m) st).1) ∧
    (∀ st : AppState, errorInv (setError none st).1) ∧
    (∀ (a : Adapter) (cred : WiFiCredentials) (st : AppState),
      (connect a cred st).1 ≠ none → errorInv (connect a cred st).2) := by
  refine ⟨?_, ?_, ?_, ?_, ?_, ?_⟩
  · intro h
    exact absurd rfl h
  · intro p st h
    unfold errorInv updateWiFiStatus at *
    exact h
  · intro b st h
    unfold errorInv at *
    rw [updateBleState_state]
    exact h
  · intro m st hm
    unfold errorInv
    rw [setError_some_state]
    intro _
    simp [hm]
  · intro st
    unfold errorInv
    rw [setError_none_state]
    intro h
    exact absurd rfl h
  · intro a cred st h
    match hc : a.platformConnect with
    | Except.error msg =>
        unfold connect
        rw [hc]
        exact connectCatch_errorInv _ _ _
    | Except.ok u =>
        cases u
        by_cases hv : a.verify cred.ssid = true
        · rw [connect_ok a cred st hc hv] at h
          exact absurd rfl h
        · rw [Bool.not_eq_true] at hv
          rw [connect_verifyFail a cred st hc hv]
          intro _
          rfl

/-- Witness for C5 amended: the preservation and establishment
conjuncts applied in the initial state. -/
theorem errorInv_initial_and_mutators_witness :
    errorInv INITIAL_STATE ∧
    errorInv (updateWiFiStatus {} INITIAL_STATE).1 ∧
    (("boom" : String) ≠ "" ∧
      errorInv (setError (some "boom") INITIAL_STATE).1) ∧
    errorInv (setError none INITIAL_STATE).1 ∧
    ((connect verifyFailAdapter homeNetCred INITIAL_STATE).1 ≠ none →
      errorInv (connect verifyFailAdapter homeNetCred INITIAL_STATE).2) :=
  ⟨errorInv_initial_and_mutators.1,
    errorInv_initial_and_mutators.2.1 {} INITIAL_STATE
      (by intro h; exact absurd rfl h),
    ⟨by decide,
      errorInv_initial_and_mutators.2.2.2.1 "boom" INITIAL_STATE (by decide)⟩,
    errorInv_initial_and_mutators.2.2.2.2.1 INITIAL_STATE,
    errorInv_initial_and_mutators.2.2.2.2.2 verifyFailAdapter homeNetCred
      INITIAL_STATE⟩

/-- Counterexample to C6: when the platform connect and the
verification succeed but the IP query returns null, the status written
by the success path has connected true together with a null ip, so the
invariant fails for that result of the IP query. -/
theorem connect_success_ip_null :
    (connect noIpAdapter homeNetCred INITIAL_STATE).2.wifiStatus.connected = true ∧
    (connect noIpAdapter homeNetCred INITIAL_STATE).2.wifiStatus.ip = none := by
  exact ⟨rfl, rfl⟩

/-- C6 amended: on the successful connect path the status written with
connected true always carries the requested ssid, hence a non-null
ssid, and its ip field equals the result of the IP query verbatim; the
ip field is therefore non-null exactly when the IP query returns a
value, not for every possible result. -/
theorem connect_success_status_fields (a : Adapter) (cred : WiFiCredentials)
    (st : AppState) (hc : a.platformConnect = Except.ok ())
    (hv : a.verify cred.ssid = true) :
    (connect a cred st).2.wifiStatus.connected = true ∧
    (connect a cred st).2.wifiStatus.ssid = some cred.ssid ∧
    (connect a cred st).2.wifiStatus.ip = a.currentIp ∧
    ((connect a cred st).2.wifiStatus.ip = none ↔ a.currentIp = none) := by
  rw [connect_ok a cred st hc hv]
  exact ⟨rfl, rfl, rfl, Iff.rfl⟩

/-- Witness for C6 amended: with the scenario adapter the written ip is
the queried 192.168.1.50. -/
theorem connect_success_status_fields_witness :
    okAdapter.platformConnect = Except.ok () ∧
    okAdapter.verify "HomeNet" = true ∧
    ((connect okAdapter homeNetCred INITIAL_STATE).2.wifiStatus.connected = true ∧
      (connect okAdapter homeNetCred INITIAL_STATE).2.wifiStatus.ssid =
        some "HomeNet" ∧
      (connect okAdapter homeNetCred INITIAL_STATE).2.wifiStatus.ip =
        okAdapter.currentIp ∧
      ((connect okAdapter homeNetCred INITIAL_STATE).2.wifiStatus.ip = none ↔
        okAdapter.currentIp = none)) :=
  ⟨rfl, rfl,
    connect_success_status_fields okAdapter homeNetCred INITIAL_STATE rfl rfl⟩

/-- A patch that rewrites every field of the initial status with its
current value. -/
def initialStatusPatch : WiFiStatusPatch :=
  { connected := some false
    ssid := some none
    ip := some none
    hostname := some none
    deviceId := some none
    message := some "Not connected" }

/-- Counterexample to C7: updateWiFiStatus with a patch equal to the
current values leaves the observed state unchanged yet emits one
notification, and setError with the current null lastError also emits
one, so value-preserving mutator calls are not silent in general. -/
theorem updateWiFiStatus_same_value_notifies :
    updateWiFiStatus initialStatusPatch INITIAL_STATE = (INITIAL_STATE, 1) ∧
    setError none INITIAL_STATE = (INITIAL_STATE, 1) := by
  exact ⟨rfl, rfl⟩

/-- C7 amended: updateProvisioningState and updateBleState are
change-detecting and silent when the value is unchanged, and a repeated
updateProvisioningState with the same value notifies exactly once; but
updateWiFiStatus emits on every call and setError emits at least one
notification on every call, including value-preserving ones. -/
theorem stateService_notification_edges :
    (∀ (st : AppState) (s : ProvisioningState), st.provisioning = s →
      updateProvisioningState s st = (st, 0)) ∧
    (∀ (st : AppState) (b : BleState), st.ble = b →
      updateBleState b st = (st, 0)) ∧
    (∀ (st : AppState) (s : ProvisioningState), st.provisioning ≠ s →
      (updateProvisioningState s st).2 = 1 ∧
      (updateProvisioningState s (updateProvisioningState s st).1).2 = 0) ∧
    (∀ (st : AppState) (p : WiFiStatusPatch), (updateWiFiStatus p st).2 = 1) ∧
    (∀ (st : AppState) (e : Option String), 1 ≤ (setError e st).2) := by
  refine ⟨?_, ?_, ?_, ?_, ?_⟩
  · intro st s h
    unfold updateProvisioningState
    simp [h]
  · intro st b h
    unfold updateBleState
    simp [h]
  · intro st s h
    constructor
    · unfold updateProvisioningState
      simp [h]
    · rw [updateProvisioningState_state]
      unfold updateProvisioningState
      simp
  · intro st p
    rfl
  · intro st e
    match e with
    | some m =>
        unfold setError
        dsimp only
        split
        · exact Nat.le_refl 1
        · exact Nat.le_add_left 1 _
    | none => exact Nat.le_refl 1

/-- Witness for C7 amended: repeating SCANNING from the initial state
notifies exactly once, and re-setting IDLE is silent. -/
theorem stateService_notification_edges_witness :
    INITIAL_STATE.provisioning = ProvisioningState.idle ∧
    INITIAL_STATE.provisioning ≠ ProvisioningState.scanning ∧
    updateProvisioningState ProvisioningState.idle INITIAL_STATE =
      (INITIAL_STATE, 0) ∧
    ((updateProvisioningState ProvisioningState.scanning INITIAL_STATE).2 = 1 ∧
      (updateProvisioningState ProvisioningState.scanning
        (updateProvisioningState ProvisioningState.scanning
          INITIAL_STATE).1).2 = 0) :=
  ⟨rfl, by decide,
    stateService_notification_edges.1 INITIAL_STATE ProvisioningState.idle rfl,
    stateService_notification_edges.2.2.1 INITIAL_STATE
      ProvisioningState.scanning (by decide)⟩

/-- Every chunk the loop emits is a take of the chunk size, hence no
longer than it. -/
theorem chunkLoop_chunk_le :
    ∀ (fuel m : Nat) (data : List Nat), ∀ c ∈ chunkLoop fuel m data,
      c.length ≤ m
  | 0, m, data => by simp [chunkLoop]
  | Nat.succ f, m, [] => by simp [chunkLoop]
  | Nat.succ f, m, d :: ds => by
      intro c hc
      simp only [chunkLoop] at hc
      rcases List.mem_cons.mp hc with h | h
      · subst h
        rw [List.length_take]
        exact min_le_left _ _
      · exact chunkLoop_chunk_le f m _ c h

/-- Concatenating the emitted chunks restores the buffer, provided the
fuel covers the buffer and the chunk size is positive. -/
theorem chunkLoop_join :
    ∀ (fuel m : Nat) (data : List Nat), data.length ≤ fuel → 0 < m →
      (chunkLoop fuel m data).flatten = data
  | 0, m, data, h, _ => by
      have hd : data = [] := List.eq_nil_of_length_eq_zero (Nat.le_zero.mp h)
      subst hd
      simp [chunkLoop]
  | Nat.succ f, m, [], _, _ => by simp [chunkLoop]
  | Nat.succ f, m, d :: ds, h, hm => by
      have hlen : ((d :: ds).drop m).length ≤ f := by
        rw [List.length_drop]
        simp only [List.length_cons] at h ⊢
        omega
      simp only [chunkLoop, List.flatten_cons]
      rw [chunkLoop_join f m ((d :: ds).drop m) hlen hm]
      exact List.take_append_drop m (d :: ds)

/-- Ceiling-division step used by the chunk count. -/
theorem ceil_div_succ (n m : Nat) (hn : 0 < n) (hm : 0 < m) :
    (n - m + m - 1) / m + 1 = (n + m - 1) / m := by
  have hr : n + m - 1 = (n - 1) + m := by omega
  rw [hr, Nat.add_div_right _ hm]
  rcases Nat.lt_or_ge n (m + 1) with h | h
  · have h1 : n - m = 0 := by omega
    rw [h1]
    have h2 : (0 + m - 1) / m = 0 := Nat.div_eq_of_lt (by omega)
    have h3 : (n - 1) / m = 0 := Nat.div_eq_of_lt (by omega)
    rw [h2, h3]
  · have h1 : n - m + m - 1 = (n - m - 1) + m := by omega
    rw [h1, Nat.add_div_right _ hm]
    have h2 : n - 1 = (n - m - 1) + m := by omega
    rw [h2, Nat.add_div_right _ hm]

/-- The loop emits exactly the ceiling of the buffer length divided by
the chunk size. -/
theorem chunkLoop_length :
    ∀ (fuel m : Nat) (data : List Nat), data.length ≤ fuel → 0 < m →
      (chunkLoop fuel m data).length = (data.length + m - 1) / m
  | 0, m, data, h, hm => by
      have hd : data = [] := List.eq_nil_of_length_eq_zero (Nat.le_zero.mp h)
      subst hd
      simp only [chunkLoop, List.length_nil]
      exact (Nat.div_eq_of_lt (by omega)).symm
  | Nat.succ f, m, [], _, hm => by
      simp only [chunkLoop, List.length_nil]
      exact (Nat.div_eq_of_lt (by omega)).symm
  | Nat.succ f, m, d :: ds, h, hm => by
      have hlen : ((d :: ds).drop m).length ≤ f := by
        rw [List.length_drop]
        simp only [List.length_cons] at h ⊢
        omega
      simp only [chunkLoop, List.length_cons]
      rw [chunkLoop_length f m ((d :: ds).drop m) hlen hm, List.length_drop]
      exact ceil_div_succ (d :: ds).length m (by simp) hm

/-- The chunk at index i is the slice that starts at offset i times the
chunk size, matching the offset arithmetic of the source loop. -/
theorem chunkLoop_getElem? :
    ∀ (fuel m : Nat) (data : List Nat), data.length ≤ fuel → 0 < m →
      ∀ i, i < (chunkLoop fuel m data).length →
        (chunkLoop fuel m data)[i]? = some ((data.drop (i * m)).take m)
  | 0, m, data, h, hm, i, hi => by
      have hd : data = [] := List.eq_nil_of_length_eq_zero (Nat.le_zero.mp h)
      subst hd
      simp [chunkLoop] at hi
  | Nat.succ f, m, [], _, hm, i, hi => by simp [chunkLoop] at hi
  | Nat.succ f, m, d :: ds, h, hm, i, hi => by
      have hlen : ((d :: ds).drop m).length ≤ f := by
        rw [List.length_drop]
        simp only [List.length_cons] at h ⊢
        omega
      match i with
      | 0 => simp [chunkLoop]
      | Nat.succ j =>
          simp only [chunkLoop, List.length_cons, Nat.succ_lt_succ_iff] at hi
          simp only [chunkLoop, List.getElem?_cons_succ]
          rw [chunkLoop_getElem? f m ((d :: ds).drop m) hlen hm j hi]
          rw [List.drop_drop, Nat.succ_mul j m, Nat.add_comm (j * m) m]

/-- C8: for a non-empty serialized payload of N bytes and a negotiated
chunk size of at least one byte, the networks list delivery produces
exactly ceil(N divided by the chunk size) chunks, each at most the
chunk size, the chunk at position i being the slice at offset i times
the chunk size, and their concatenation in delivery order is the
original payload. -/
theorem sendNetworks_chunking (maxChunkSize : Nat) (data : List Nat)
    (hm : 0 < maxChunkSize) (hd : data ≠ []) :
    (sendNetworksChunks maxChunkSize data).length =
      (data.length + maxChunkSize - 1) / maxChunkSize ∧
    (∀ c ∈ sendNetworksChunks maxChunkSize data, c.length ≤ maxChunkSize) ∧
    ((sendNetworksChunks maxChunkSize data).flatten = data) ∧
    (∀ i, i < (sendNetworksChunks maxChunkSize data).length →
      (sendNetworksChunks maxChunkSize data)[i]? =
        some ((data.drop (i * maxChunkSize)).take maxChunkSize)) := by
  unfold sendNetworksChunks
  exact ⟨chunkLoop_length data.length maxChunkSize data (Nat.le_refl _) hm,
    chunkLoop_chunk_le data.length maxChunkSize data,
    chunkLoop_join data.length maxChunkSize data (Nat.le_refl _) hm,
    chunkLoop_getElem? data.length maxChunkSize data (Nat.le_refl _) hm⟩

/-- Witness for C8: a seven-byte payload with maximum chunk size three
yields three chunks of sizes three, three and one. -/
theorem sendNetworks_chunking_witness :
    0 < 3 ∧ ([1, 2, 3, 4, 5, 6, 7] : List Nat) ≠ [] ∧
    ((sendNetworksChunks 3 [1, 2, 3, 4, 5, 6, 7]).length =
        (([1, 2, 3, 4, 5, 6, 7] : List Nat).length + 3 - 1) / 3 ∧
      (∀ c ∈ sendNetworksChunks 3 [1, 2, 3, 4, 5, 6, 7], c.length ≤ 3) ∧
      ((sendNetworksChunks 3 [1, 2, 3, 4, 5, 6, 7]).flatten =
        [1, 2, 3, 4, 5, 6, 7]) ∧
      (∀ i, i < (sendNetworksChunks 3 [1, 2, 3, 4, 5, 6, 7]).length →
        (sendNetworksChunks 3 [1, 2, 3, 4, 5, 6, 7])[i]? =
          some ((([1, 2, 3, 4, 5, 6, 7] : List Nat).drop (i * 3)).take 3))) :=
  ⟨by decide, by decide,
    sendNetworks_chunking 3 [1, 2, 3, 4, 5, 6, 7] (by decide) (by decide)⟩

/-- The deduplicated list is a sublist of the candidate entries, so the
first-seen order is preserved. -/
theorem dedupNetworks_sublist :
    ∀ (l : List Network) (seen : List String),
      List.Sublist (dedupNetworks seen l) l
  | [], _ => List.Sublist.refl []
  | n :: rest, seen => by
      unfold dedupNetworks
      split
      · exact List.Sublist.cons n (dedupNetworks_sublist rest seen)
      · exact List.Sublist.cons₂ n (dedupNetworks_sublist rest (n.ssid :: seen))

/-- No kept entry has an ssid that was already marked as seen. -/
theorem dedupNetworks_not_seen :
    ∀ (l : List Network) (seen : List String) (n : Network),
      n ∈ dedupNetworks seen l → n.ssid ∉ seen
  | [], _, n => by simp [dedupNetworks]
  | m :: rest, seen, n => by
      unfold dedupNetworks
      split
      · exact dedupNetworks_not_seen rest seen n
      · rename_i hms
        intro hmem
        rcases List.mem_cons.mp hmem with h | h
        · subst h
          exact hms
        · intro hs
          exact dedupNetworks_not_seen rest (m.ssid :: seen) n h
            (List.mem_cons_of_mem _ hs)

/-- The kept entries have pairwise distinct ssids. -/
theorem dedupNetworks_pairwise :
    ∀ (l : List Network) (seen : List String),
      (dedupNetworks seen l).Pairwise (fun a b => a.ssid ≠ b.ssid)
  | [], _ => List.Pairwise.nil
  | m :: rest, seen => by
      unfold dedupNetworks
      split
      · exact dedupNetworks_pairwise rest seen
      · refine List.Pairwise.cons ?_ (dedupNetworks_pairwise rest (m.ssid :: seen))
        intro b hb heq
        exact dedupNetworks_not_seen rest (m.ssid :: seen) b hb
          (heq ▸ List.mem_cons_self _ _)

/-- Every candidate whose ssid is not yet seen is represented in the
deduplicated list. -/
theorem dedupNetworks_complete :
    ∀ (l : List Network) (seen : List String) (n : Network),
      n ∈ l → n.ssid ∉ seen →
      ∃ m ∈ dedupNetworks seen l, m.ssid = n.ssid
  | [], _, n => by simp
  | m :: rest, seen, n => by
      intro hmem hns
      unfold dedupNetworks
      split
      · rename_i hm
        rcases List.mem_cons.mp hmem with h | h
        · subst h
          exact absurd hm hns
        · exact dedupNetworks_complete rest seen n h hns
      · rename_i hm
        rcases List.mem_cons.mp hmem with h | h
        · subst h
          exact ⟨n, List.mem_cons_self _ _, rfl⟩
        · by_cases hsame : n.ssid = m.ssid
          · exact ⟨m, List.mem_cons_self _ _, hsame.symm⟩
          · have hns2 : n.ssid ∉ m.ssid :: seen := by
              intro hx
              rcases List.mem_cons.mp hx with hx1 | hx2
              · exact hsame hx1
              · exact hns hx2
            obtain ⟨w, hw, hws⟩ :=
              dedupNetworks_complete rest (m.ssid :: seen) n h hns2
            exact ⟨w, List.mem_cons_of_mem _ hw, hws⟩

/-- Every kept entry is exactly the first candidate with its ssid. -/
theorem dedupNetworks_find? :
    ∀ (l : List Network) (seen : List String) (n : Network),
      n ∈ dedupNetworks seen l →
      l.find? (fun m => m.ssid == n.ssid) = some n
  | [], _, n => by simp [dedupNetworks]
  | m :: rest, seen, n => by
      intro hmem
      unfold dedupNetworks at hmem
      by_cases hm : m.ssid ∈ seen
      · rw [if_pos hm] at hmem
        have hn := dedupNetworks_not_seen rest seen n hmem
        have hne : m.ssid ≠ n.ssid := fun h => hn (h ▸ hm)
        rw [List.find?_cons_of_neg _ (by simp [hne])]
        exact dedupNetworks_find? rest seen n hmem
      · rw [if_neg hm] at hmem
        rcases List.mem_cons.mp hmem with h | h
        · subst h
          rw [List.find?_cons_of_pos _ (by simp)]
        · have hn := dedupNetworks_not_seen rest (m.ssid :: seen) n h
          have hne : m.ssid ≠ n.ssid := by
            intro he
            exact hn (he ▸ List.mem_cons_self _ _)
          rw [List.find?_cons_of_neg _ (by simp [hne])]
          exact dedupNetworks_find? rest (m.ssid :: seen) n h

/-- C10: parsing a scan output deduplicates the per-line entries by
ssid keeping the first-seen entry: the result is a sublist of the
candidate entries (so it keeps first-seen order), its ssids are
pairwise distinct, every kept entry is the first candidate with its
ssid (so the first occurrence quality and security are preserved), and
every candidate ssid is represented. -/
theorem parseNmcliOutput_first_seen_dedup (output : String) :
    List.Sublist (parseNmcliOutput output) (lineEntries output) ∧
    (parseNmcliOutput output).Pairwise (fun a b => a.ssid ≠ b.ssid) ∧
    (∀ n ∈ parseNmcliOutput output,
      (lineEntries output).find? (fun m => m.ssid == n.ssid) = some n) ∧
    (∀ n ∈ lineEntries output,
      ∃ m ∈ parseNmcliOutput output, m.ssid = n.ssid) := by
  refine ⟨dedupNetworks_sublist _ _, dedupNetworks_pairwise _ _, ?_, ?_⟩
  · intro n hn
    exact dedupNetworks_find? _ _ n hn
  · intro n hn
    exact dedupNetworks_complete _ _ n hn (by simp)

/-- Witness for C10: the scan scenario with duplicate identifier A and
differing signal values 70 and 30 keeps two networks and the quality 70
of the first occurrence of A. -/
theorem parseNmcliOutput_first_seen_dedup_witness :
    ({ ssid := "A", quality := some 70, security := "WPA2" } : Network) ∈
      parseNmcliOutput "A:70:WPA2\nB:50:WPA2\nA:30:WPA2" ∧
    (lineEntries "A:70:WPA2\nB:50:WPA2\nA:30:WPA2").find?
      (fun m => m.ssid ==
        ({ ssid := "A", quality := some 70, security := "WPA2" } : Network).ssid) =
      some { ssid := "A", quality := some 70, security := "WPA2" } ∧
    (parseNmcliOutput "A:70:WPA2\nB:50:WPA2\nA:30:WPA2").length = 2 :=
  ⟨by decide,
    (parseNmcliOutput_first_seen_dedup "A:70:WPA2\nB:50:WPA2\nA:30:WPA2").2.2.1
      { ssid := "A", quality := some 70, security := "WPA2" } (by decide),
    by decide⟩

/-- Counterexample to C9: a write of an empty payload at offset 0 makes
the handler throw inside Buffer.readUInt8 before any callback reply, so
it does not reply success. -/
theorem connectTrigger_empty_payload_throws :
    (connectOnWriteRequest okAdapter "HomeNet" "secret123" [] 0
      INITIAL_STATE).reply = none ∧
    (connectOnWriteRequest okAdapter "HomeNet" "secret123" [] 0
      INITIAL_STATE).reply ≠ some BleResult.success := by
  exact ⟨rfl, by decide⟩

/-- C9 amended: a write at offset 0 whose payload is non-empty and
whose first byte is not 1 replies success with no state change and no
adapter invocation; a write with an empty payload throws inside the
handler without replying and without side effect. -/
theorem connectTrigger_nonOne_noop :
    (∀ (a : Adapter) (ssid password : String) (st : AppState)
      (data : List Nat) (b : Nat),
      data.head? = some b → b ≠ 1 →
      connectOnWriteRequest a ssid password data 0 st =
        { reply := some BleResult.success, state := st
          adapterInvoked := false }) ∧
    (∀ (a : Adapter) (ssid password : String) (st : AppState),
      connectOnWriteRequest a ssid password [] 0 st =
        { reply := none, state := st, adapterInvoked := false }) := by
  constructor
  · intro a ssid password st data b hb hb1
    unfold connectOnWriteRequest
    simp [hb, hb1]
  · intro a ssid password st
    rfl

/-- Witness for C9 amended: a single zero byte is a benign no-op. -/
theorem connectTrigger_nonOne_noop_witness :
    ([0] : List Nat).head? = some 0 ∧ (0 : Nat) ≠ 1 ∧
    connectOnWriteRequest okAdapter "HomeNet" "secret123" [0] 0
      INITIAL_STATE =
      { reply := some BleResult.success, state := INITIAL_STATE
        adapterInvoked := false } :=
  ⟨rfl, by decide,
    connectTrigger_nonOne_noop.1 okAdapter "HomeNet" "secret123"
      INITIAL_STATE [0] 0 rfl (by decide)⟩

end Beatnik
